import Mathlib

set_option maxRecDepth 100000

/-!
Shallow embedding of the icewheel-energy-key-beacon-function HTTP handler
(src/index.js) and proofs about its specified behavior.

Modelling conventions:
* JavaScript strings are Lean `String`s; `undefined` is `Option.none`.
* `process.env` lookups, `Buffer.from(s, 'base64').toString('utf8')` and
  `readFileSync` are effects of the runtime; they are supplied through an
  explicit `Env` record.  Base64 decoding in Node never throws for string
  input, so it is a total function; a file read that throws is `none`.
* Outbound `fetch` calls are supplied through a `World` record, one outcome
  per upstream target; a rejected fetch promise is `Outcome.fetchErr` with
  the error message, a resolved one is `Outcome.ok` with the HTTP status and
  the decoded JSON body (`.json().catch(function errorToEmpty)` never throws, a
  body that fails to decode is the empty object).
* The JSON values the handler itself produces are represented structurally
  by `RespBody` instead of through `JSON.stringify`.
* `req.body` is either an already-parsed object (Express with a JSON
  content type) or the raw stream text together with the result of
  `JSON.parse` on it (`none` when the parse throws).
-/

/-- The JSON object bodies the handler reads: only the fields the code
destructures are observable.  A missing field is `none`; JavaScript
truthiness on these string fields is `some s` with `s` nonempty. -/
structure Body where
  clientId : Option String
  clientSecret : Option String
  domain : Option String
  token : Option String
  regions : Option (List String)
deriving DecidableEq, Repr

/-- The empty JSON object, as produced by `JSON.parse` of an empty body. -/
def Body.empty : Body := ⟨none, none, none, none, none⟩

/-- JavaScript truthiness of a possibly-absent string field. -/
def truthyOpt : Option String → Bool
  | none => false
  | some s => s ≠ ""

/-- The request body as seen by `parseJson` in src/index.js: either
an object already attached to the request, or raw stream text paired with
the result of `JSON.parse` on it (`none` models a parse exception). -/
inductive ReqBody where
  | objectBody (b : Body)
  | streamBody (data : String) (parsed : Option Body)
deriving Repr

/-- An inbound HTTP request: method, `req.url` and `req.path` (either may be
absent or empty, mirroring the JavaScript fallback chain), and the body. -/
structure Request where
  method : String
  url : Option String
  path : Option String
  body : ReqBody

/-- The decoded JSON body of an upstream response.  Only the `error` and
`msg` fields are inspected by the code; `rest` keeps the remaining payload
opaque but comparable. -/
structure UpstreamData where
  errorField : Option String
  msgField : Option String
  rest : List (String × String)
deriving DecidableEq, Repr

/-- JavaScript `a || b` on a possibly-absent string against a default. -/
def orTruthy (a : Option String) (b : String) : String :=
  match a with
  | some s => if s = "" then b else s
  | none => b

/-- The interpolated `data.error || data.msg || 'Unknown'` of the thrown
API error message. -/
def UpstreamData.errMsg (d : UpstreamData) : String :=
  orTruthy d.errorField (orTruthy d.msgField "Unknown")

/-- Outcome of one `fetch` call: the promise resolves with a status and the
decoded JSON body, or rejects with an error message. -/
inductive Outcome where
  | ok (status : Nat) (data : UpstreamData)
  | fetchErr (message : String)
deriving DecidableEq, Repr

/-- The effectful context of one request: environment variables, base64
decoding and file reading (for the key resolver), and the upstream fetch
outcomes (the token endpoint, and one outcome per region code). -/
structure Env where
  teslaPublicKey : Option String
  teslaPublicKeyBase64 : Option String
  teslaPublicKeyFile : Option String
  decodeBase64 : String → String
  readFile : String → Option String

/-- Upstream fetch outcomes for one request. -/
structure World where
  tokenFetch : Outcome
  regionFetch : String → Outcome

/-- One settled promise of the per-region fan-out, before formatting:
`fulfilled` carries the resolved `{region, data, url}` object, `rejected`
carries the message of the rejection reason. -/
inductive Settled where
  | fulfilled (region : String) (data : UpstreamData) (url : String)
  | rejected (message : String)
deriving DecidableEq, Repr

/-- One formatted entry of the aggregate response:
`fulfilled` is `\x7bstatus:'fulfilled', value:\x7bregion, data, url\x7d\x7d`,
`rejected` is `\x7bstatus:'rejected', reason:\x7bmessage\x7d, value:\x7bregion\x7d\x7d`
where the region tag is recovered from the message. -/
inductive FormattedEntry where
  | fulfilled (region : String) (data : UpstreamData) (url : String)
  | rejected (message : String) (valueRegion : String)
deriving DecidableEq, Repr

/-- The region tag (`value.region`) an entry carries. -/
def entryRegion : FormattedEntry → String
  | .fulfilled region _ _ => region
  | .rejected _ valueRegion => valueRegion

/-- Whether an entry reports a rejection. -/
def FormattedEntry.isRejected : FormattedEntry → Bool
  | .fulfilled _ _ _ => false
  | .rejected _ _ => true

/-- Structural representation of the response bodies the handler emits. -/
inductive RespBody where
  | text (s : String)
  | errorJson (msg : String)
  | tokenJson (data : UpstreamData)
  | settledArray (entries : List FormattedEntry)
deriving DecidableEq, Repr

/-- An outbound HTTP response: status, headers in the order they are set,
and the body. -/
structure Response where
  status : Nat
  headers : List (String × String)
  body : RespBody
deriving DecidableEq, Repr

/-- The three permissive cross-origin headers every sender sets. -/
def corsHeaders : List (String × String) :=
  [("Access-Control-Allow-Origin", "*"),
   ("Access-Control-Allow-Methods", "GET, POST, OPTIONS"),
   ("Access-Control-Allow-Headers", "Content-Type, Authorization")]

/-- `sendJson` of src/index.js: JSON content type, CORS headers, body. -/
def sendJson (status : Nat) (body : RespBody) : Response :=
  { status := status
    headers := ("Content-Type", "application/json") :: corsHeaders
    body := body }

/-- `sendText` of src/index.js. -/
def sendText (status : Nat) (body : String) (contentType : String) : Response :=
  { status := status
    headers := ("Content-Type", contentType) :: corsHeaders
    body := .text body }

/-- `sendHtml` of src/index.js, `sendText` at the HTML content type. -/
def sendHtml (status : Nat) (html : String) : Response :=
  sendText status html "text/html; charset=utf-8"

/-- The 404 fall-through response of the dispatcher. -/
def notFoundResponse : Response :=
  sendText 404 "Not Found" "text/plain; charset=utf-8"

/-- The OPTIONS preflight response: CORS headers only, 204, empty body. -/
def optionsResponse : Response :=
  { status := 204, headers := corsHeaders, body := .text "" }

/-- `parseJson` of src/index.js: a pre-parsed object is returned as is;
otherwise the stream text is read, an empty text yields the empty object,
and a text on which `JSON.parse` throws rejects with the message below. -/
def parseJson : ReqBody → Except String Body
  | .objectBody b => .ok b
  | .streamBody data parsed =>
    if data = "" then .ok Body.empty
    else
      match parsed with
      | some b => .ok b
      | none => .error "Invalid JSON body"

/-- Whitespace characters removed by JavaScript `String.prototype.trim`
(the ASCII ones; the exotic Unicode space characters never appear in the
strings this program handles). -/
def isJsWhitespace (c : Char) : Bool :=
  c = ' ' || c = '\t' || c = '\n' || c = '\r' || c = '\x0b' || c = '\x0c'

/-- JavaScript `String.prototype.trim` on a character list. -/
def jsTrimList (l : List Char) : List Char :=
  ((l.dropWhile isJsWhitespace).reverse.dropWhile isJsWhitespace).reverse

/-- JavaScript `String.prototype.trim`. -/
def jsTrim (s : String) : String :=
  String.mk (jsTrimList s.data)

/-- Global, non-overlapping, left-to-right replacement of a nonempty
pattern, the semantics of `String.prototype.replace` with a global regex on
a literal pattern.  The fuel argument starts at the input length; every
step consumes one unit of fuel and at least one input character, so the
fuel never runs out before the input does. -/
def replaceAllFuel (pat rep : List Char) : Nat → List Char → List Char
  | 0, l => l
  | _ + 1, [] => []
  | fuel + 1, c :: cs =>
    if pat.isPrefixOf (c :: cs) then
      rep ++ replaceAllFuel pat rep fuel (cs.drop (pat.length - 1))
    else c :: replaceAllFuel pat rep fuel cs

/-- JavaScript global replacement of a literal pattern. -/
def jsReplaceAll (s pat rep : String) : String :=
  if pat = "" then s
  else String.mk (replaceAllFuel pat.data rep.data s.data.length s.data)

/-- `normalizePem` of src/index.js: absent or empty input is `undefined`;
otherwise every escaped newline sequence (backslash n) is replaced by a
real newline, surrounding whitespace is trimmed, and an empty result is
`undefined`. -/
def normalizePem (input : Option String) : Option String :=
  match input with
  | none => none
  | some s =>
    if s = "" then none
    else
      let unescaped := jsTrim (jsReplaceAll s "\\n" "\n")
      if unescaped.length > 0 then some unescaped else none

/-- Character class `[A-Z ]` of the PEM-header regex. -/
def isUpperOrSpace (c : Char) : Bool :=
  ('A' ≤ c && c ≤ 'Z') || c = ' '

/-- Whether the regex `-----BEGIN [A-Z ]+-----` matches at the head of the
character list.  The class excludes the dash, so the greedy run is the only
candidate split. -/
def beginMarkerAt (cs : List Char) : Bool :=
  "-----BEGIN ".data.isPrefixOf cs &&
  (let rest := cs.drop 11
   let run := rest.takeWhile isUpperOrSpace
   decide (1 ≤ run.length) && "-----".data.isPrefixOf (rest.drop run.length))

/-- Whether the regex `-----BEGIN [A-Z ]+-----` matches anywhere. -/
def hasBeginMarker : List Char → Bool
  | [] => false
  | c :: cs => beginMarkerAt (c :: cs) || hasBeginMarker cs

/-- `tryDecodeBase64` of src/index.js: decode, normalize, and keep the
result only when it contains a PEM BEGIN header line. -/
def tryDecodeBase64 (decode : String → String) (input : Option String) : Option String :=
  match input with
  | none => none
  | some s =>
    if s = "" then none
    else
      match normalizePem (some (decode s)) with
      | some normalized =>
        if hasBeginMarker normalized.data then some normalized else none
      | none => none

/-- `tryReadFile` of src/index.js: read the file and normalize; a read that
throws yields `undefined`. -/
def tryReadFile (readFile : String → Option String) (path : Option String) : Option String :=
  match path with
  | none => none
  | some p =>
    if p = "" then none
    else
      match readFile p with
      | some content => normalizePem (some content)
      | none => none

/-- The `IN_SOURCE_PUBLIC_KEY` template literal of src/index.js, with its
leading and trailing newlines. -/
def IN_SOURCE_PUBLIC_KEY : String :=
  "\n-----BEGIN PUBLIC KEY-----\nMFkwEwYHKoZIzj0CAQYIKoZIzj0DAQcDQgAEE/508A42d9++IF62A/5NfKqQ9wJ/\n3WPEaNbFALv3jl0cW8N4x82+3cNer3aLz8VjPYf2d2c6z1gI4a/sBCHwZw==\n-----END PUBLIC KEY-----\n"

/-- The compiled-in fallback key after normalization. -/
def defaultPublicKeyPem : String :=
  "-----BEGIN PUBLIC KEY-----\nMFkwEwYHKoZIzj0CAQYIKoZIzj0DAQcDQgAEE/508A42d9++IF62A/5NfKqQ9wJ/\n3WPEaNbFALv3jl0cW8N4x82+3cNer3aLz8VjPYf2d2c6z1gI4a/sBCHwZw==\n-----END PUBLIC KEY-----"

/-- `resolvePublicKey` of src/index.js: the first truthy result of
raw env value, base64 env value, file path, then the compiled-in fallback.
The three helpers never return an empty string, so JavaScript `||` is
`Option` choice. -/
def resolvePublicKey (env : Env) : Option String :=
  let fromEnv :=
    match normalizePem env.teslaPublicKey with
    | some v => some v
    | none =>
      match tryDecodeBase64 env.decodeBase64 env.teslaPublicKeyBase64 with
      | some v => some v
      | none => tryReadFile env.readFile env.teslaPublicKeyFile
  match fromEnv with
  | some v => some v
  | none => normalizePem (some IN_SOURCE_PUBLIC_KEY)

/-- The `REGION_URLS` table of src/index.js. -/
def REGION_URLS (region : String) : Option String :=
  if region = "na" then some "https://fleet-api.prd.na.vn.cloud.tesla.com"
  else if region = "eu" then some "https://fleet-api.prd.eu.vn.cloud.tesla.com"
  else none

/-- The `TESLA_AUTH_URL` constant of src/index.js. -/
def TESLA_AUTH_URL : String :=
  "https://fleet-auth.prd.vn.cloud.tesla.com/oauth2/v3/token"

/-- `escapeHtml` of src/index.js, one character at a time. -/
def escapeHtmlChar (c : Char) : String :=
  if c = '&' then "&amp;"
  else if c = '<' then "&lt;"
  else if c = '>' then "&gt;"
  else if c = '"' then "&quot;"
  else if c = '\'' then "&#39;"
  else String.mk [c]

/-- `escapeHtml` of src/index.js. -/
def escapeHtml (s : String) : String :=
  String.join (s.data.map escapeHtmlChar)

/-- Characters `encodeURIComponent` leaves unescaped. -/
def isUnreservedUri (c : Char) : Bool :=
  c.isAlphanum || c = '-' || c = '_' || c = '.' || c = '!' ||
  c = '~' || c = '*' || c = '\'' || c = '(' || c = ')'

/-- Upper-case hexadecimal digit of a value below 16. -/
def hexDigit (n : Nat) : Char :=
  if n < 10 then Char.ofNat ('0'.toNat + n) else Char.ofNat ('A'.toNat + n - 10)

/-- Percent-encoding of one byte. -/
def percentByte (b : Nat) : String :=
  String.mk ['%', hexDigit (b / 16), hexDigit (b % 16)]

/-- UTF-8 bytes of one code point. -/
def utf8Bytes (c : Char) : List Nat :=
  let n := c.toNat
  if n < 128 then [n]
  else if n < 2048 then [192 + n / 64, 128 + n % 64]
  else if n < 65536 then [224 + n / 4096, 128 + (n / 64) % 64, 128 + n % 64]
  else [240 + n / 262144, 128 + (n / 4096) % 64, 128 + (n / 64) % 64, 128 + n % 64]

/-- JavaScript `encodeURIComponent`. -/
def encodeURIComponent (s : String) : String :=
  String.join (s.data.map (fun c =>
    if isUnreservedUri c then String.mk [c]
    else String.join ((utf8Bytes c).map percentByte)))

/-- JavaScript `String.prototype.endsWith`. -/
def jsEndsWith (s suffix : String) : Bool :=
  suffix.data.isSuffixOf s.data

/-- JavaScript word character class, the regex `\w`. -/
def isWordChar (c : Char) : Bool :=
  c.isAlphanum || c = '_'

/-- Whether the regex `for (\w+)` matches at the head of the list; the
captured group is the greedy word-character run after the literal. -/
def matchForAt (cs : List Char) : Option String :=
  match cs with
  | c1 :: c2 :: c3 :: c4 :: rest =>
    if c1 = 'f' ∧ c2 = 'o' ∧ c3 = 'r' ∧ c4 = ' ' then
      let run := rest.takeWhile isWordChar
      if run.isEmpty then none else some (String.mk run)
    else none
  | _ => none

/-- The first match of the regex `for (\w+)`, scanning left to right. -/
def firstForWord : List Char → Option String
  | [] => none
  | c :: cs =>
    match matchForAt (c :: cs) with
    | some w => some w
    | none => firstForWord cs

/-- The region tag recovered from a rejection message:
`(message.match(regex for word)||[])[1] || 'unknown'`. -/
def extractRegion (message : String) : String :=
  match firstForWord message.data with
  | some w => if w = "" then "unknown" else w
  | none => "unknown"

/-- The per-region async closure of the register/verify branch: an unknown
region throws before any fetch; otherwise the regional URL is built, the
fetch outcome is consulted, and a non-2xx status throws the tagged API
error message. -/
def regionCall (isRegister : Bool) (domain : String) (fetchO : String → Outcome)
    (region : String) : Settled :=
  match REGION_URLS region with
  | none => .rejected ("Invalid region: " ++ region)
  | some base =>
    let url :=
      if isRegister then base ++ "/api/1/partner_accounts"
      else base ++ "/api/1/partner_accounts/public_key?domain=" ++ encodeURIComponent domain
    match fetchO region with
    | .fetchErr m => .rejected m
    | .ok status data =>
      if 200 ≤ status ∧ status < 300 then .fulfilled region data url
      else .rejected ("API error for " ++ region ++ ": " ++ data.errMsg)

/-- The `results.map` formatting step of the register/verify branch. -/
def formatSettled : Settled → FormattedEntry
  | .fulfilled region data url => .fulfilled region data url
  | .rejected message => .rejected message (extractRegion message)

/-- The `/get-token` branch: missing credentials short-circuit with 400;
otherwise the token endpoint outcome is proxied through (a rejected fetch
propagates to the top-level catch, which answers 500 with the message). -/
def handleGetToken (w : World) (b : Body) : Response :=
  if truthyOpt b.clientId && truthyOpt b.clientSecret then
    match w.tokenFetch with
    | .ok status data => sendJson status (.tokenJson data)
    | .fetchErr m => sendJson 500 (.errorJson m)
  else sendJson 400 (.errorJson "clientId and clientSecret are required")

/-- The `/register` and `/verify` branch: missing fields short-circuit with
400; otherwise one call per requested region is settled and the formatted
aggregate is answered with status 200. -/
def handleRegisterVerify (w : World) (path : String) (b : Body) : Response :=
  match b.regions with
  | some rs =>
    if truthyOpt b.domain && truthyOpt b.token && !rs.isEmpty then
      sendJson 200 (.settledArray (rs.map (fun r =>
        formatSettled (regionCall (jsEndsWith path "/register") (b.domain.getD "")
          w.regionFetch r))))
    else sendJson 400 (.errorJson "Domain, token, and regions are required")
  | none => sendJson 400 (.errorJson "Domain, token, and regions are required")

/-- The opening static markup of the index page, up to the key block.
Static CSS, CDN links and the client-side script of the template are
elided: no observable behavior of the handler depends on them. -/
def indexHtmlHead : String :=
  "<!DOCTYPE html>\n<html lang=\"en\">\n<head><meta charset=\"utf-8\" /><title>Icewheel Energy Key Beacon</title></head>\n<body>"

/-- The closing static markup of the index page. -/
def indexHtmlTail : String :=
  "</body>\n</html>"

/-- `renderIndexHtml` of src/index.js: the key block shows the escaped key
when one is configured (with a copy button) and a warning otherwise, inside
the static page shell. -/
def renderIndexHtml (publicKey : Option String) : String :=
  let keyBlock :=
    match publicKey with
    | some pk =>
      "<pre id=\"publicKey\" class=\"small border rounded p-3 bg-light\" style=\"white-space:pre-wrap;word-break:break-all;\">"
        ++ escapeHtml pk ++ "</pre>"
        ++ "<div class=\"mt-2\"><button id=\"copyKeyBtn\" class=\"btn btn-outline-secondary btn-sm\"><i class=\"bi bi-clipboard\"></i> Copy</button></div>"
    | none =>
      "<div class=\"alert alert-warning\">Public key not configured. Set env vars or paste into index.js.</div>"
  indexHtmlHead ++ keyBlock ++ indexHtmlTail

/-- The exact well-known key path. -/
def wellKnownPath : String :=
  "/.well-known/appspecific/com.tesla.3p.public-key.pem"

/-- `(req.path || req.url || '').split(qmark)[0]`: everything before the
first question mark. -/
def requestPath (req : Request) : String :=
  let raw :=
    match req.path with
    | some p =>
      if p = "" then (match req.url with | some u => u | none => "") else p
    | none => (match req.url with | some u => u | none => "")
  String.mk (raw.data.takeWhile (fun c => c ≠ '?'))

/-- The well-known key branch: 200 with the PEM when resolution yields a
key, 404 otherwise. -/
def servePublicKey (env : Env) : Response :=
  match resolvePublicKey env with
  | some pk => sendText 200 pk "application/x-pem-file"
  | none => sendText 404 "Public key not found" "text/plain; charset=utf-8"

/-- The exported `beacon` handler of src/index.js.  The top-level
try/catch is reflected where an await can reject: a body whose JSON parse
throws and a rejected token fetch both surface as 500 with the message. -/
def beacon (env : Env) (w : World) (req : Request) : Response :=
  if req.method = "OPTIONS" then optionsResponse
  else if req.method = "GET" ∧
      (requestPath req = "/" ∨ jsEndsWith (requestPath req) "/index.html" = true) then
    sendHtml 200 (renderIndexHtml (resolvePublicKey env))
  else if req.method = "GET" ∧ requestPath req = wellKnownPath then
    servePublicKey env
  else if req.method = "POST" then
    match parseJson req.body with
    | .ok b =>
      if jsEndsWith (requestPath req) "/get-token" = true then handleGetToken w b
      else if jsEndsWith (requestPath req) "/register" = true ∨
          jsEndsWith (requestPath req) "/verify" = true then
        handleRegisterVerify w (requestPath req) b
      else notFoundResponse
    | .error m => sendJson 500 (.errorJson m)
  else notFoundResponse

/-! ## General properties of the senders and the dispatcher -/

/-- A response carries the three permissive cross-origin headers. -/
def hasCors (resp : Response) : Prop :=
  ("Access-Control-Allow-Origin", "*") ∈ resp.headers ∧
  ("Access-Control-Allow-Methods", "GET, POST, OPTIONS") ∈ resp.headers ∧
  ("Access-Control-Allow-Headers", "Content-Type, Authorization") ∈ resp.headers

theorem hasCors_sendJson (status : Nat) (body : RespBody) :
    hasCors (sendJson status body) := by
  simp [hasCors, sendJson, corsHeaders]

theorem hasCors_sendText (status : Nat) (body contentType : String) :
    hasCors (sendText status body contentType) := by
  simp [hasCors, sendText, corsHeaders]

theorem hasCors_options : hasCors optionsResponse := by
  simp [hasCors, optionsResponse, corsHeaders]

theorem hasCors_servePublicKey (env : Env) : hasCors (servePublicKey env) := by
  unfold servePublicKey
  split <;> exact hasCors_sendText _ _ _

theorem hasCors_handleGetToken (w : World) (b : Body) :
    hasCors (handleGetToken w b) := by
  unfold handleGetToken
  split
  · split <;> exact hasCors_sendJson _ _
  · exact hasCors_sendJson _ _

theorem hasCors_handleRegisterVerify (w : World) (path : String) (b : Body) :
    hasCors (handleRegisterVerify w path b) := by
  unfold handleRegisterVerify
  split
  · split <;> exact hasCors_sendJson _ _
  · exact hasCors_sendJson _ _

theorem hasCors_notFound : hasCors notFoundResponse :=
  hasCors_sendText _ _ _

/-- The dispatcher on a POST request, with the body parse still pending. -/
theorem beacon_post_eq (env : Env) (w : World) (req : Request)
    (hm : req.method = "POST") :
    beacon env w req =
      (match parseJson req.body with
       | .ok b =>
         if jsEndsWith (requestPath req) "/get-token" = true then handleGetToken w b
         else if jsEndsWith (requestPath req) "/register" = true ∨
             jsEndsWith (requestPath req) "/verify" = true then
           handleRegisterVerify w (requestPath req) b
         else notFoundResponse
       | .error m => sendJson 500 (.errorJson m)) := by
  unfold beacon
  rw [hm]
  rw [if_neg (by decide), if_neg (fun h => absurd h.1 (by decide)),
    if_neg (fun h => absurd h.1 (by decide)), if_pos rfl]

/-- The dispatcher on a POST request whose body parses. -/
theorem beacon_post_ok (env : Env) (w : World) (req : Request) (b : Body)
    (hm : req.method = "POST") (hb : parseJson req.body = .ok b) :
    beacon env w req =
      (if jsEndsWith (requestPath req) "/get-token" = true then handleGetToken w b
       else if jsEndsWith (requestPath req) "/register" = true ∨
           jsEndsWith (requestPath req) "/verify" = true then
         handleRegisterVerify w (requestPath req) b
       else notFoundResponse) := by
  rw [beacon_post_eq env w req hm, hb]

/-- The dispatcher on a POST request whose body parse throws. -/
theorem beacon_post_err (env : Env) (w : World) (req : Request) (m : String)
    (hm : req.method = "POST") (hb : parseJson req.body = .error m) :
    beacon env w req = sendJson 500 (.errorJson m) := by
  rw [beacon_post_eq env w req hm, hb]

/-- The dispatcher routes a parsed POST with a register or verify path
suffix (and no get-token suffix) to the register/verify branch. -/
theorem beacon_post_regverify (env : Env) (w : World) (req : Request) (b : Body)
    (hm : req.method = "POST") (hb : parseJson req.body = .ok b)
    (hgt : jsEndsWith (requestPath req) "/get-token" = false)
    (hrv : jsEndsWith (requestPath req) "/register" = true ∨
      jsEndsWith (requestPath req) "/verify" = true) :
    beacon env w req = handleRegisterVerify w (requestPath req) b := by
  rw [beacon_post_ok env w req b hm hb, if_neg (by simp [hgt]), if_pos hrv]

/-- The dispatcher serves the key branch on a GET of the exact well-known
path. -/
theorem beacon_get_wellKnown (env : Env) (w : World) (req : Request)
    (hm : req.method = "GET") (hp : requestPath req = wellKnownPath) :
    beacon env w req = servePublicKey env := by
  unfold beacon
  rw [hm, hp]
  rw [if_neg (by decide), if_neg (fun h => absurd h.2 (by decide)), if_pos ⟨rfl, rfl⟩]

/-- The dispatcher serves the page on a GET of the root or of any path
ending in the index suffix. -/
theorem beacon_get_index (env : Env) (w : World) (req : Request)
    (hm : req.method = "GET")
    (hp : requestPath req = "/" ∨ jsEndsWith (requestPath req) "/index.html" = true) :
    beacon env w req = sendHtml 200 (renderIndexHtml (resolvePublicKey env)) := by
  unfold beacon
  rw [hm]
  rw [if_neg (by decide), if_pos ⟨rfl, hp⟩]

/-- The register/verify branch when every required field is present. -/
theorem handleRegisterVerify_eq (w : World) (path : String) (b : Body)
    (rs : List String)
    (hr : b.regions = some rs) (hd : truthyOpt b.domain = true)
    (ht : truthyOpt b.token = true) (hne : rs ≠ []) :
    handleRegisterVerify w path b =
      sendJson 200 (.settledArray (rs.map (fun r =>
        formatSettled (regionCall (jsEndsWith path "/register") (b.domain.getD "")
          w.regionFetch r)))) := by
  have hcond : (truthyOpt b.domain && truthyOpt b.token && !rs.isEmpty) = true := by
    rw [hd, ht]
    cases rs with
    | nil => exact absurd rfl hne
    | cons a l => rfl
  simp [handleRegisterVerify, hr, hcond]

/-! ## Fixtures used by witnesses and counterexamples -/

/-- An environment with no key configuration. -/
def env0 : Env :=
  ⟨none, none, none, fun _ => "", fun _ => none⟩

/-- A world where every upstream call succeeds with an empty JSON body. -/
def dataEmpty : UpstreamData := ⟨none, none, []⟩

def world0 : World :=
  ⟨.ok 200 dataEmpty, fun _ => .ok 200 dataEmpty⟩

/-! ## Claim C1 -/

/-- Claim C1: every GET of the well-known key path answers 200 with the
resolved public key as the body when key resolution yields a key, and 404
when key resolution yields none. -/
theorem C1_wellKnown_key (env : Env) (w : World) (req : Request)
    (hm : req.method = "GET") (hp : requestPath req = wellKnownPath) :
    (∀ pk, resolvePublicKey env = some pk →
      (beacon env w req).status = 200 ∧ (beacon env w req).body = .text pk) ∧
    (resolvePublicKey env = none → (beacon env w req).status = 404) := by
  have hsrv := beacon_get_wellKnown env w req hm hp
  constructor
  · intro pk hpk
    rw [hsrv]
    unfold servePublicKey
    rw [hpk]
    exact ⟨rfl, rfl⟩
  · intro hnone
    rw [hsrv]
    unfold servePublicKey
    rw [hnone]
    rfl

def reqWellKnown : Request :=
  ⟨"GET", none, some wellKnownPath, .streamBody "" none⟩

/-- Witness for C1: with no key configured the compiled-in fallback is
served with status 200. -/
theorem C1_wellKnown_key_witness :
    (beacon env0 world0 reqWellKnown).status = 200 ∧
    (beacon env0 world0 reqWellKnown).body = .text defaultPublicKeyPem :=
  (C1_wellKnown_key env0 world0 reqWellKnown rfl (by decide)).1
    defaultPublicKeyPem (by decide)

/-! ## Claim C2 -/

/-- A nonempty string has positive length. -/
theorem string_length_pos_of_ne_empty (s : String) (h : s ≠ "") : s.length > 0 := by
  cases s with
  | mk data =>
    cases data with
    | nil => exact absurd rfl h
    | cons c cs => simp [String.length]

/-- Claim C2: key resolution returns the normalization of the first
non-empty source in the priority order raw value, base64 value, file; it
falls back to the compiled-in default when all three sources resolve to
nothing (empty or malformed); it never returns absent, because the
compiled-in fallback normalizes to a nonempty key; and normalization
replaces every escaped newline sequence with a real newline and trims
surrounding whitespace. -/
theorem C2_resolver_priority (env : Env) :
    (∀ v, normalizePem env.teslaPublicKey = some v → resolvePublicKey env = some v) ∧
    (normalizePem env.teslaPublicKey = none →
      ∀ v, tryDecodeBase64 env.decodeBase64 env.teslaPublicKeyBase64 = some v →
        resolvePublicKey env = some v) ∧
    (normalizePem env.teslaPublicKey = none →
      tryDecodeBase64 env.decodeBase64 env.teslaPublicKeyBase64 = none →
      ∀ v, tryReadFile env.readFile env.teslaPublicKeyFile = some v →
        resolvePublicKey env = some v) ∧
    (normalizePem env.teslaPublicKey = none →
      tryDecodeBase64 env.decodeBase64 env.teslaPublicKeyBase64 = none →
      tryReadFile env.readFile env.teslaPublicKeyFile = none →
      resolvePublicKey env = some defaultPublicKeyPem) ∧
    resolvePublicKey env ≠ none ∧
    (∀ s, s ≠ "" →
      normalizePem (some s) =
        (if jsTrim (jsReplaceAll s "\\n" "\n") = "" then none
         else some (jsTrim (jsReplaceAll s "\\n" "\n")))) := by
  refine ⟨?g1, ?g2, ?g3, ?g4, ?g5, ?g6⟩
  case g1 =>
    intro v hv
    simp [resolvePublicKey, hv]
  case g2 =>
    intro h0 v hv
    simp [resolvePublicKey, h0, hv]
  case g3 =>
    intro h0 h1 v hv
    simp [resolvePublicKey, h0, h1, hv]
  case g4 =>
    intro h0 h1 h2
    simp only [resolvePublicKey, h0, h1, h2]
    decide
  case g5 =>
    cases hA : normalizePem env.teslaPublicKey with
    | some v => simp [resolvePublicKey, hA]
    | none =>
      cases hB : tryDecodeBase64 env.decodeBase64 env.teslaPublicKeyBase64 with
      | some v => simp [resolvePublicKey, hA, hB]
      | none =>
        cases hC : tryReadFile env.readFile env.teslaPublicKeyFile with
        | some v => simp [resolvePublicKey, hA, hB, hC]
        | none =>
          simp only [resolvePublicKey, hA, hB, hC]
          decide
  case g6 =>
    intro s hs
    simp only [normalizePem]
    rw [if_neg hs]
    by_cases he : jsTrim (jsReplaceAll s "\\n" "\n") = ""
    · rw [if_pos he, he]
      rfl
    · rw [if_neg he, if_pos (string_length_pos_of_ne_empty _ he)]

/-- An environment whose raw key variable is set. -/
def envRaw : Env :=
  ⟨some " raw-key-value ", none, none, fun _ => "", fun _ => none⟩

/-- Witness for C2: the raw environment value wins and is normalized. -/
theorem C2_resolver_priority_witness :
    resolvePublicKey envRaw = some "raw-key-value" :=
  (C2_resolver_priority envRaw).1 "raw-key-value" (by decide)

/-! ## Claim C4 -/

/-- Claim C4: a POST to the token, register or verify endpoint whose parsed
body is the empty object answers 400 with the exact documented error
message, and the response does not depend on the outside world (no
outbound call is consulted). -/
theorem C4_empty_body_400 (env : Env) (w w2 : World) (req : Request)
    (hm : req.method = "POST") (hb : parseJson req.body = .ok Body.empty) :
    (jsEndsWith (requestPath req) "/get-token" = true →
      (beacon env w req).status = 400 ∧
      (beacon env w req).body = .errorJson "clientId and clientSecret are required") ∧
    ((jsEndsWith (requestPath req) "/register" = true ∨
        jsEndsWith (requestPath req) "/verify" = true) →
      jsEndsWith (requestPath req) "/get-token" = false →
      (beacon env w req).status = 400 ∧
      (beacon env w req).body = .errorJson "Domain, token, and regions are required") ∧
    beacon env w req = beacon env w2 req := by
  refine ⟨?g1, ?g2, ?g3⟩
  case g1 =>
    intro hgt
    rw [beacon_post_ok env w req Body.empty hm hb, if_pos hgt]
    exact ⟨rfl, rfl⟩
  case g2 =>
    intro hrv hgt
    rw [beacon_post_ok env w req Body.empty hm hb, if_neg (by simp [hgt]), if_pos hrv]
    exact ⟨rfl, rfl⟩
  case g3 =>
    rw [beacon_post_ok env w req Body.empty hm hb,
      beacon_post_ok env w2 req Body.empty hm hb]
    by_cases h1 : jsEndsWith (requestPath req) "/get-token" = true
    · rw [if_pos h1, if_pos h1]
      rfl
    · rw [if_neg h1, if_neg h1]
      by_cases h2 : jsEndsWith (requestPath req) "/register" = true ∨
          jsEndsWith (requestPath req) "/verify" = true
      · rw [if_pos h2, if_pos h2]
        rfl
      · rw [if_neg h2, if_neg h2]

/-- A POST of the empty object to the token endpoint. -/
def reqTokenEmpty : Request :=
  ⟨"POST", none, some "/get-token", .objectBody Body.empty⟩

/-- Witness for C4 at the token endpoint. -/
theorem C4_empty_body_400_witness :
    (beacon env0 world0 reqTokenEmpty).status = 400 ∧
    (beacon env0 world0 reqTokenEmpty).body =
      .errorJson "clientId and clientSecret are required" :=
  (C4_empty_body_400 env0 world0 world0 reqTokenEmpty rfl rfl).1 (by decide)

/-! ## Claim C7 -/

/-- Claim C7: every response of the handler, on every branch, carries the
permissive cross-origin headers. -/
theorem C7_cors_all_branches (env : Env) (w : World) (req : Request) :
    hasCors (beacon env w req) := by
  unfold beacon
  split
  · exact hasCors_options
  split
  · exact hasCors_sendText _ _ _
  split
  · exact hasCors_servePublicKey env
  split
  · split
    · split
      · exact hasCors_handleGetToken _ _
      split
      · exact hasCors_handleRegisterVerify _ _ _
      · exact hasCors_notFound
    · exact hasCors_sendJson _ _
  · exact hasCors_notFound

/-! ## Claim C8 -/

/-- Claim C8: every OPTIONS request, on any path, answers 204 with an empty
body and the cross-origin headers set. -/
theorem C8_options_204 (env : Env) (w : World) (req : Request)
    (hm : req.method = "OPTIONS") :
    (beacon env w req).status = 204 ∧ (beacon env w req).body = .text "" ∧
    hasCors (beacon env w req) := by
  have h : beacon env w req = optionsResponse := by
    unfold beacon
    rw [hm, if_pos rfl]
  rw [h]
  exact ⟨rfl, rfl, hasCors_options⟩

def reqOptionsFoo : Request :=
  ⟨"OPTIONS", some "/foo", none, .streamBody "" none⟩

/-- Witness for C8 on an arbitrary path. -/
theorem C8_options_204_witness :
    (beacon env0 world0 reqOptionsFoo).status = 204 ∧
    (beacon env0 world0 reqOptionsFoo).body = .text "" ∧
    hasCors (beacon env0 world0 reqOptionsFoo) :=
  C8_options_204 env0 world0 reqOptionsFoo rfl

/-! ## Claim C9 -/

/-- Claim C9: a POST to the token, register or verify endpoint whose raw
body text is present but fails to parse as JSON answers through the
top-level unexpected-error path: status 500 with the invalid-JSON message,
not a 400 client error. -/
theorem C9_invalid_json_500 (env : Env) (w : World) (req : Request) (s : String)
    (hm : req.method = "POST")
    (_hroute : jsEndsWith (requestPath req) "/get-token" = true ∨
      jsEndsWith (requestPath req) "/register" = true ∨
      jsEndsWith (requestPath req) "/verify" = true)
    (hbody : req.body = .streamBody s none) (hs : s ≠ "") :
    (beacon env w req).status = 500 ∧
    (beacon env w req).body = .errorJson "Invalid JSON body" := by
  have hp : parseJson req.body = .error "Invalid JSON body" := by
    rw [hbody]
    simp only [parseJson]
    rw [if_neg hs]
  rw [beacon_post_err env w req _ hm hp]
  exact ⟨rfl, rfl⟩

/-- A POST to the token endpoint whose body text does not parse. -/
def reqBadJsonToken : Request :=
  ⟨"POST", none, some "/get-token", .streamBody "\x7b" none⟩

/-- Witness for C9. -/
theorem C9_invalid_json_500_witness :
    (beacon env0 world0 reqBadJsonToken).status = 500 ∧
    (beacon env0 world0 reqBadJsonToken).body = .errorJson "Invalid JSON body" :=
  C9_invalid_json_500 env0 world0 reqBadJsonToken "\x7b" rfl (Or.inl (by decide))
    rfl (by decide)

/-! ## Claim C3 (corrected) -/

/-- Scanning an API error message for the region word: the fixed prefix
holds the first match of the regex, so the capture is the region, whatever
the rest of the message is. -/
theorem firstForWord_apiPrefix_na (l : List Char) :
    firstForWord ('A' :: 'P' :: 'I' :: ' ' :: 'e' :: 'r' :: 'r' :: 'o' :: 'r' :: ' ' ::
      'f' :: 'o' :: 'r' :: ' ' :: 'n' :: 'a' :: ':' :: ' ' :: l) = some "na" := by
  simp +decide [firstForWord, matchForAt, isWordChar, List.takeWhile_cons]

theorem firstForWord_apiPrefix_eu (l : List Char) :
    firstForWord ('A' :: 'P' :: 'I' :: ' ' :: 'e' :: 'r' :: 'r' :: 'o' :: 'r' :: ' ' ::
      'f' :: 'o' :: 'r' :: ' ' :: 'e' :: 'u' :: ':' :: ' ' :: l) = some "eu" := by
  simp +decide [firstForWord, matchForAt, isWordChar, List.takeWhile_cons]

theorem extractRegion_api_na (m : String) :
    extractRegion ("API error for na: " ++ m) = "na" := by
  have hdata : ("API error for na: " ++ m).data =
      'A' :: 'P' :: 'I' :: ' ' :: 'e' :: 'r' :: 'r' :: 'o' :: 'r' :: ' ' ::
      'f' :: 'o' :: 'r' :: ' ' :: 'n' :: 'a' :: ':' :: ' ' :: m.data := by
    rw [String.data_append]
    rfl
  unfold extractRegion
  rw [hdata, firstForWord_apiPrefix_na]
  decide

theorem extractRegion_api_eu (m : String) :
    extractRegion ("API error for eu: " ++ m) = "eu" := by
  have hdata : ("API error for eu: " ++ m).data =
      'A' :: 'P' :: 'I' :: ' ' :: 'e' :: 'r' :: 'r' :: 'o' :: 'r' :: ' ' ::
      'f' :: 'o' :: 'r' :: ' ' :: 'e' :: 'u' :: ':' :: ' ' :: m.data := by
    rw [String.data_append]
    rfl
  unfold extractRegion
  rw [hdata, firstForWord_apiPrefix_eu]
  decide

/-- A resolved fetch for the na region yields an entry tagged na, whether
the upstream status was a success (fulfilled entry) or not (rejected entry
whose message starts with the tagged API error prefix). -/
theorem entryRegion_ok_na (isReg : Bool) (dom : String) (fetchO : String → Outcome)
    (st : Nat) (d : UpstreamData) (hf : fetchO "na" = .ok st d) :
    entryRegion (formatSettled (regionCall isReg dom fetchO "na")) = "na" := by
  have hru : REGION_URLS "na" = some "https://fleet-api.prd.na.vn.cloud.tesla.com" := by
    decide
  simp only [regionCall, hru, hf]
  by_cases hok : 200 ≤ st ∧ st < 300
  · rw [if_pos hok]
    rfl
  · rw [if_neg hok]
    show extractRegion ("API error for na: " ++ d.errMsg) = "na"
    exact extractRegion_api_na d.errMsg

theorem entryRegion_ok_eu (isReg : Bool) (dom : String) (fetchO : String → Outcome)
    (st : Nat) (d : UpstreamData) (hf : fetchO "eu" = .ok st d) :
    entryRegion (formatSettled (regionCall isReg dom fetchO "eu")) = "eu" := by
  have hru : REGION_URLS "eu" = some "https://fleet-api.prd.eu.vn.cloud.tesla.com" := by
    decide
  simp only [regionCall, hru, hf]
  by_cases hok : 200 ≤ st ∧ st < 300
  · rw [if_pos hok]
    rfl
  · rw [if_neg hok]
    show extractRegion ("API error for eu: " ++ d.errMsg) = "eu"
    exact extractRegion_api_eu d.errMsg

/-- A world in which the na call suffers a transport-level failure whose
message carries no region marker, while the eu call succeeds. -/
def worldNetErr : World :=
  ⟨.ok 200 dataEmpty,
   fun r => if r = "na" then .fetchErr "socket hang up" else .ok 200 dataEmpty⟩

/-- A register request for both regions with all required fields. -/
def reqRegisterNaEu : Request :=
  ⟨"POST", none, some "/register",
   .objectBody ⟨none, none, some "example.com", some "tok", some ["na", "eu"]⟩⟩

/-- Counterexample to claim C3 as stated: with regions na and eu, when the
na fetch rejects at the transport level (message without a region marker),
the aggregate still has one entry per region, but the rejected entry that
reports on the na call carries the tag unknown, not na. -/
theorem C3_counterexample :
    (beacon env0 worldNetErr reqRegisterNaEu).status = 200 ∧
    (beacon env0 worldNetErr reqRegisterNaEu).body =
      .settledArray
        [.rejected "socket hang up" "unknown",
         .fulfilled "eu" dataEmpty
           "https://fleet-api.prd.eu.vn.cloud.tesla.com/api/1/partner_accounts"] ∧
    entryRegion (.rejected "socket hang up" "unknown") ≠ "na" :=
  ⟨by decide, by decide, by decide⟩

/-- Claim C3 (amended): for a POST to register or verify with regions
exactly na and eu and all required fields, the response is a status-200
array of length 2 whose first entry is the formatted settlement of the na
call and whose second is that of the eu call; every fulfilled entry
carries its region, and every rejected entry arising from a resolved
upstream response (an API-status failure) carries its region; only a
rejected fetch promise (transport failure) can carry a tag extracted from
its message instead, unknown when the message has no region marker. -/
theorem C3_perRegion_amended (env : Env) (w : World) (req : Request) (b : Body)
    (hm : req.method = "POST")
    (hgt : jsEndsWith (requestPath req) "/get-token" = false)
    (hrv : jsEndsWith (requestPath req) "/register" = true ∨
      jsEndsWith (requestPath req) "/verify" = true)
    (hb : parseJson req.body = .ok b)
    (hd : truthyOpt b.domain = true) (ht : truthyOpt b.token = true)
    (hr : b.regions = some ["na", "eu"]) :
    ∃ e1 e2,
      (beacon env w req).status = 200 ∧
      (beacon env w req).body = .settledArray [e1, e2] ∧
      e1 = formatSettled (regionCall (jsEndsWith (requestPath req) "/register")
        (b.domain.getD "") w.regionFetch "na") ∧
      e2 = formatSettled (regionCall (jsEndsWith (requestPath req) "/register")
        (b.domain.getD "") w.regionFetch "eu") ∧
      (∀ st d, w.regionFetch "na" = .ok st d → entryRegion e1 = "na") ∧
      (∀ st d, w.regionFetch "eu" = .ok st d → entryRegion e2 = "eu") := by
  have hbe := beacon_post_regverify env w req b hm hb hgt hrv
  have hh := handleRegisterVerify_eq w (requestPath req) b ["na", "eu"] hr hd ht
    (by decide)
  rw [hh] at hbe
  refine ⟨_, _, by rw [hbe]; rfl, by rw [hbe]; rfl, rfl, rfl, ?tagNa, ?tagEu⟩
  case tagNa =>
    intro st d hf
    exact entryRegion_ok_na _ _ _ st d hf
  case tagEu =>
    intro st d hf
    exact entryRegion_ok_eu _ _ _ st d hf

/-- A world in which the na call succeeds and the eu call resolves with a
non-2xx status. -/
def worldApiErr : World :=
  ⟨.ok 200 dataEmpty,
   fun r => if r = "na" then .ok 200 dataEmpty
     else .ok 404 ⟨some "not found", none, []⟩⟩

/-- Witness for the amended C3: one fulfilled and one API-rejected entry,
each tagged with its own region. -/
theorem C3_perRegion_amended_witness :
    ∃ e1 e2,
      (beacon env0 worldApiErr reqRegisterNaEu).status = 200 ∧
      (beacon env0 worldApiErr reqRegisterNaEu).body = .settledArray [e1, e2] ∧
      entryRegion e1 = "na" ∧ entryRegion e2 = "eu" := by
  obtain ⟨e1, e2, hst, hbody, _, _, hna, heu⟩ :=
    C3_perRegion_amended env0 worldApiErr reqRegisterNaEu
      ⟨none, none, some "example.com", some "tok", some ["na", "eu"]⟩
      rfl (by decide) (Or.inl (by decide)) rfl (by decide) (by decide) rfl
  exact ⟨e1, e2, hst, hbody, hna 200 dataEmpty rfl,
    heu 404 ⟨some "not found", none, []⟩ rfl⟩

/-! ## Claim C5 -/

/-- Claim C5: in a POST to register or verify with all required fields and
a nonempty regions list, a region code outside the fixed table (na, eu)
produces a rejected entry for that call inside a status-200 aggregate; the
request as a whole still answers 200. -/
theorem C5_invalid_region_rejected (env : Env) (w : World) (req : Request)
    (b : Body) (rs : List String)
    (hm : req.method = "POST")
    (hgt : jsEndsWith (requestPath req) "/get-token" = false)
    (hrv : jsEndsWith (requestPath req) "/register" = true ∨
      jsEndsWith (requestPath req) "/verify" = true)
    (hb : parseJson req.body = .ok b)
    (hd : truthyOpt b.domain = true) (ht : truthyOpt b.token = true)
    (hr : b.regions = some rs) (hne : rs ≠ []) :
    (beacon env w req).status = 200 ∧
    (beacon env w req).body = .settledArray (rs.map (fun r =>
      formatSettled (regionCall (jsEndsWith (requestPath req) "/register")
        (b.domain.getD "") w.regionFetch r))) ∧
    ∀ r ∈ rs, r ≠ "na" → r ≠ "eu" →
      formatSettled (regionCall (jsEndsWith (requestPath req) "/register")
        (b.domain.getD "") w.regionFetch r) =
        .rejected ("Invalid region: " ++ r) (extractRegion ("Invalid region: " ++ r)) ∧
      (formatSettled (regionCall (jsEndsWith (requestPath req) "/register")
        (b.domain.getD "") w.regionFetch r)).isRejected = true := by
  have hbe := beacon_post_regverify env w req b hm hb hgt hrv
  rw [handleRegisterVerify_eq w (requestPath req) b rs hr hd ht hne] at hbe
  refine ⟨by rw [hbe]; rfl, by rw [hbe]; rfl, ?g3⟩
  intro r _ hna heu
  have hru : REGION_URLS r = none := by
    unfold REGION_URLS
    rw [if_neg hna, if_neg heu]
  constructor
  · simp only [regionCall, hru, formatSettled]
  · simp only [regionCall, hru, formatSettled, FormattedEntry.isRejected]

/-- A register request naming a region outside the table. -/
def reqRegisterBadRegion : Request :=
  ⟨"POST", none, some "/register",
   .objectBody ⟨none, none, some "example.com", some "tok", some ["xx"]⟩⟩

/-- Witness for C5: the unknown region xx is rejected per call while the
request answers 200. -/
theorem C5_invalid_region_rejected_witness :
    (beacon env0 world0 reqRegisterBadRegion).status = 200 ∧
    (formatSettled (regionCall (jsEndsWith (requestPath reqRegisterBadRegion) "/register")
      ((⟨none, none, some "example.com", some "tok", some ["xx"]⟩ : Body).domain.getD "")
      world0.regionFetch "xx")).isRejected = true := by
  obtain ⟨hst, _, hrej⟩ :=
    C5_invalid_region_rejected env0 world0 reqRegisterBadRegion
      ⟨none, none, some "example.com", some "tok", some ["xx"]⟩ ["xx"]
      rfl (by decide) (Or.inl (by decide)) rfl (by decide) (by decide) rfl (by decide)
  exact ⟨hst, (hrej "xx" (by simp) (by decide) (by decide)).2⟩

/-! ## Claim C6 -/

/-- The settlement of one region call depends only on that region's own
fetch outcome. -/
theorem regionCall_congr (isReg : Bool) (dom : String) (f g : String → Outcome)
    (r : String) (h : f r = g r) :
    regionCall isReg dom f r = regionCall isReg dom g r := by
  unfold regionCall
  rw [h]

/-- Claim C6: in a POST to register or verify, the entry at any position
holding region r depends only on the fetch outcome of r itself: two worlds
that agree on r (and may differ arbitrarily on every other region) produce
the same entry at every position where r is requested. -/
theorem C6_region_entry_independent (env : Env) (w w2 : World) (req : Request)
    (b : Body) (rs : List String) (r : String)
    (hm : req.method = "POST")
    (hgt : jsEndsWith (requestPath req) "/get-token" = false)
    (hrv : jsEndsWith (requestPath req) "/register" = true ∨
      jsEndsWith (requestPath req) "/verify" = true)
    (hb : parseJson req.body = .ok b)
    (hd : truthyOpt b.domain = true) (ht : truthyOpt b.token = true)
    (hr : b.regions = some rs) (hne : rs ≠ [])
    (hag : w.regionFetch r = w2.regionFetch r) :
    (beacon env w req).status = 200 ∧ (beacon env w2 req).status = 200 ∧
    ∃ es es2,
      (beacon env w req).body = .settledArray es ∧
      (beacon env w2 req).body = .settledArray es2 ∧
      es.length = rs.length ∧ es2.length = rs.length ∧
      ∀ i : Nat, rs[i]? = some r → es[i]? = es2[i]? := by
  have hbe := beacon_post_regverify env w req b hm hb hgt hrv
  rw [handleRegisterVerify_eq w (requestPath req) b rs hr hd ht hne] at hbe
  have hbe2 := beacon_post_regverify env w2 req b hm hb hgt hrv
  rw [handleRegisterVerify_eq w2 (requestPath req) b rs hr hd ht hne] at hbe2
  have hcall : regionCall (jsEndsWith (requestPath req) "/register")
      (b.domain.getD "") w.regionFetch r =
      regionCall (jsEndsWith (requestPath req) "/register")
      (b.domain.getD "") w2.regionFetch r :=
    regionCall_congr _ _ _ _ _ hag
  refine ⟨by rw [hbe]; rfl, by rw [hbe2]; rfl,
    rs.map (fun x => formatSettled (regionCall (jsEndsWith (requestPath req) "/register")
      (b.domain.getD "") w.regionFetch x)),
    rs.map (fun x => formatSettled (regionCall (jsEndsWith (requestPath req) "/register")
      (b.domain.getD "") w2.regionFetch x)),
    by rw [hbe]; rfl, by rw [hbe2]; rfl, by simp, by simp, ?g⟩
  intro i hi
  simp [List.getElem?_map, hi, hcall]

/-- Witness for C6: the worlds with a healthy eu and a failing eu agree on
na, and the na entry of the aggregate is the same in both runs. -/
theorem C6_region_entry_independent_witness :
    ∃ es es2,
      (beacon env0 world0 reqRegisterNaEu).body = .settledArray es ∧
      (beacon env0 worldApiErr reqRegisterNaEu).body = .settledArray es2 ∧
      ∀ i : Nat, (["na", "eu"] : List String)[i]? = some "na" → es[i]? = es2[i]? := by
  obtain ⟨_, _, es, es2, h1, h2, _, _, hind⟩ :=
    C6_region_entry_independent env0 world0 worldApiErr reqRegisterNaEu
      ⟨none, none, some "example.com", some "tok", some ["na", "eu"]⟩
      ["na", "eu"] "na"
      rfl (by decide) (Or.inl (by decide)) rfl (by decide) (by decide) rfl
      (by decide) (by decide)
  exact ⟨es, es2, h1, h2, hind⟩

/-! ## Claim C10 (corrected) -/

/-- The dispatcher answers 404 on a GET that matches no route. -/
theorem beacon_get_notFound (env : Env) (w : World) (req : Request)
    (hm : req.method = "GET") (h1 : requestPath req ≠ "/")
    (h2 : jsEndsWith (requestPath req) "/index.html" = false)
    (h3 : requestPath req ≠ wellKnownPath) :
    beacon env w req = notFoundResponse := by
  unfold beacon
  rw [hm]
  rw [if_neg (by decide),
    if_neg (fun h => h.2.elim h1 (fun he => absurd he (by simp [h2]))),
    if_neg (fun h => h3 h.2),
    if_neg (by decide)]

/-- The dispatcher answers 404 on a parsed POST that matches no route. -/
theorem beacon_post_notFound (env : Env) (w : World) (req : Request) (b : Body)
    (hm : req.method = "POST") (hb : parseJson req.body = .ok b)
    (h1 : jsEndsWith (requestPath req) "/get-token" = false)
    (h2 : jsEndsWith (requestPath req) "/register" = false)
    (h3 : jsEndsWith (requestPath req) "/verify" = false) :
    beacon env w req = notFoundResponse := by
  rw [beacon_post_ok env w req b hm hb, if_neg (by simp [h1]),
    if_neg (by simp [h2, h3])]

/-- The dispatcher answers 404 on any method other than OPTIONS, GET and
POST. -/
theorem beacon_other_notFound (env : Env) (w : World) (req : Request)
    (h1 : req.method ≠ "OPTIONS") (h2 : req.method ≠ "GET")
    (h3 : req.method ≠ "POST") :
    beacon env w req = notFoundResponse := by
  unfold beacon
  rw [if_neg h1, if_neg (fun h => h2 h.1), if_neg (fun h => h2 h.1), if_neg h3]

/-- The dispatcher short-circuits every OPTIONS request. -/
theorem beacon_options (env : Env) (w : World) (req : Request)
    (hm : req.method = "OPTIONS") :
    beacon env w req = optionsResponse := by
  unfold beacon
  rw [hm, if_pos rfl]

/-- A POST to an unrouted path whose body text does not parse. -/
def reqBadJsonNoRoute : Request :=
  ⟨"POST", none, some "/nope", .streamBody "\x7b" none⟩

/-- Counterexample to claim C10 as stated: not every unmatched
method-plus-path answers 404.  An OPTIONS request to an unmatched path
answers 204, and a POST to an unmatched path whose body fails to parse
answers 500. -/
theorem C10_counterexample :
    (beacon env0 world0 reqOptionsFoo).status = 204 ∧
    beacon env0 world0 reqOptionsFoo ≠ notFoundResponse ∧
    (beacon env0 world0 reqBadJsonNoRoute).status = 500 ∧
    beacon env0 world0 reqBadJsonNoRoute ≠ notFoundResponse :=
  ⟨by decide, by decide, by decide, by decide⟩

/-- Claim C10 (amended): POST endpoints and the HTML page are matched by
path suffix with any prefix, the well-known key path and the root are
matched exactly, and any other method-plus-path answers 404 Not Found —
except that an OPTIONS request always answers 204 and a POST whose body
fails to parse answers 500 regardless of path. -/
theorem C10_routing_amended (env : Env) (w : World) :
    (∀ req b, req.method = "POST" → parseJson req.body = .ok b →
      jsEndsWith (requestPath req) "/get-token" = true →
      beacon env w req = handleGetToken w b) ∧
    (∀ req b, req.method = "POST" → parseJson req.body = .ok b →
      jsEndsWith (requestPath req) "/get-token" = false →
      (jsEndsWith (requestPath req) "/register" = true ∨
        jsEndsWith (requestPath req) "/verify" = true) →
      beacon env w req = handleRegisterVerify w (requestPath req) b) ∧
    (∀ req, req.method = "GET" →
      (requestPath req = "/" ∨ jsEndsWith (requestPath req) "/index.html" = true) →
      beacon env w req = sendHtml 200 (renderIndexHtml (resolvePublicKey env))) ∧
    (∀ req, req.method = "GET" → requestPath req = wellKnownPath →
      beacon env w req = servePublicKey env) ∧
    (∀ req, req.method = "GET" → requestPath req ≠ "/" →
      jsEndsWith (requestPath req) "/index.html" = false →
      requestPath req ≠ wellKnownPath →
      beacon env w req = notFoundResponse) ∧
    (∀ req b, req.method = "POST" → parseJson req.body = .ok b →
      jsEndsWith (requestPath req) "/get-token" = false →
      jsEndsWith (requestPath req) "/register" = false →
      jsEndsWith (requestPath req) "/verify" = false →
      beacon env w req = notFoundResponse) ∧
    (∀ req, req.method ≠ "OPTIONS" → req.method ≠ "GET" → req.method ≠ "POST" →
      beacon env w req = notFoundResponse) ∧
    (∀ req, req.method = "OPTIONS" → beacon env w req = optionsResponse) ∧
    (∀ req s, req.method = "POST" → req.body = .streamBody s none → s ≠ "" →
      beacon env w req = sendJson 500 (.errorJson "Invalid JSON body")) := by
  refine ⟨?r1, ?r2, ?r3, ?r4, ?r5, ?r6, ?r7, ?r8, ?r9⟩
  case r1 =>
    intro req b hm hb hgt
    rw [beacon_post_ok env w req b hm hb, if_pos hgt]
  case r2 =>
    intro req b hm hb hgt hrv
    exact beacon_post_regverify env w req b hm hb hgt hrv
  case r3 =>
    intro req hm hp
    exact beacon_get_index env w req hm hp
  case r4 =>
    intro req hm hp
    exact beacon_get_wellKnown env w req hm hp
  case r5 =>
    intro req hm h1 h2 h3
    exact beacon_get_notFound env w req hm h1 h2 h3
  case r6 =>
    intro req b hm hb h1 h2 h3
    exact beacon_post_notFound env w req b hm hb h1 h2 h3
  case r7 =>
    intro req h1 h2 h3
    exact beacon_other_notFound env w req h1 h2 h3
  case r8 =>
    intro req hm
    exact beacon_options env w req hm
  case r9 =>
    intro req s hm hbody hs
    have hp : parseJson req.body = .error "Invalid JSON body" := by
      rw [hbody]
      simp only [parseJson]
      rw [if_neg hs]
    exact beacon_post_err env w req _ hm hp

/-- A credentialled token body. -/
def tokenBodyFull : Body := ⟨some "id", some "secret", none, none, none⟩

/-- A POST whose path carries a prefix before the token suffix. -/
def reqTokenPrefixed : Request :=
  ⟨"POST", none, some "/api/v1/get-token", .objectBody tokenBodyFull⟩

/-- Witness for the amended C10: a prefixed path still dispatches to the
token handler. -/
theorem C10_routing_amended_witness :
    beacon env0 world0 reqTokenPrefixed = handleGetToken world0 tokenBodyFull :=
  (C10_routing_amended env0 world0).1 reqTokenPrefixed tokenBodyFull rfl rfl
    (by decide)
